import Mathlib

/-!
Shallow embedding of the Rubin ToO exposure-time-calculator module
(`etc.py`): the per-band parameter table, the depth/exposure converters
`get_exptime` and `get_m5`, the trailing-loss estimator
`calc_trailing_losses`, and the event time-budget estimator
`calc_event_time_budget`.

Floating-point not-a-number propagation is modelled with `Option ℝ`:
`log10q` returns `none` exactly where `np.log10` would produce a
not-a-number value (non-positive argument), and `none` propagates through
the remaining arithmetic, mirroring NaN propagation.  The time-budget
estimator involves only rational arithmetic and is embedded over `ℚ`.
-/

/-- The six Rubin bands. -/
inductive Filt
  | u | g | r | i | z | y
deriving DecidableEq

/-- Per-band photometric constants; the twilight entries are absent for
the bands (u, y) that the source table does not list them for. -/
structure FiltParams where
  Cm : ℝ
  dCm_inf : ℝ
  zp : ℝ
  fwhm : ℝ
  fwhm_twilight : Option ℝ
  m_darksky : ℝ
  m_twilight : Option ℝ
  k_atm : ℝ

/-- The `params` table of `etc.py`. -/
def params : Filt → FiltParams
  | .u => { Cm := 22.97, dCm_inf := 0.54, zp := 26.52, fwhm := 0.92,
            fwhm_twilight := none, m_darksky := 23.05, m_twilight := none,
            k_atm := 0.47 }
  | .g => { Cm := 24.58, dCm_inf := 0.09, zp := 28.51, fwhm := 0.87,
            fwhm_twilight := none, m_darksky := 22.25, m_twilight := none,
            k_atm := 0.21 }
  | .r => { Cm := 24.6, dCm_inf := 0.04, zp := 28.36, fwhm := 0.83,
            fwhm_twilight := some 1.43, m_darksky := 21.2,
            m_twilight := some 19.47, k_atm := 0.13 }
  | .i => { Cm := 24.54, dCm_inf := 0.03, zp := 28.17, fwhm := 0.80,
            fwhm_twilight := some 1.49, m_darksky := 20.46,
            m_twilight := some 18.68, k_atm := 0.10 }
  | .z => { Cm := 24.37, dCm_inf := 0.02, zp := 27.78, fwhm := 0.78,
            fwhm_twilight := some 1.42, m_darksky := 19.61,
            m_twilight := some 17.92, k_atm := 0.07 }
  | .y => { Cm := 23.84, dCm_inf := 0.02, zp := 26.82, fwhm := 0.76,
            fwhm_twilight := none, m_darksky := 18.6, m_twilight := none,
            k_atm := 0.17 }

/-- `np.log10` with not-a-number modelled as `none`: defined exactly on
positive arguments. -/
noncomputable def log10q (x : ℝ) : Option ℝ :=
  if 0 < x then some (Real.logb 10 x) else none

/-- `get_exptime(m5, filt, X, twilight)` from `etc.py`: given a 5-sigma
depth, return the exposure time, with the `dCm = 0` approximation and the
twilight substitution `m_sky = m_twilight`, `fwhm = fwhm_twilight`
(each defaulting to -99.0 when absent, as `dict.get` does). -/
noncomputable def get_exptime (m5 : ℝ) (filt : Filt) (X : ℝ) (twilight : Bool) : Option ℝ :=
  let p := params filt
  let m_sky := if twilight then p.m_twilight.getD (-99) else p.m_darksky
  let fwhm := if twilight then p.fwhm_twilight.getD (-99) else p.fwhm
  let dCm : ℝ := 0
  (log10q (0.7 / fwhm)).map fun lg =>
    30 * (10 : ℝ) ^ ((1 / 1.25) * (m5 - p.Cm - dCm - 0.5 * (m_sky - 21) -
      2.5 * lg + p.k_atm * (X - 1)))

/-- `get_m5(exptime, filt, X, twilight)` from `etc.py`: given an exposure
time, return the 5-sigma depth, including the `dCm` correction computed
from `Tscale`; the `Tscale` ratio references `m_darksky` even in the
twilight branch. -/
noncomputable def get_m5 (exptime : ℝ) (filt : Filt) (X : ℝ) (twilight : Bool) : Option ℝ :=
  let p := params filt
  let m_sky := if twilight then p.m_twilight.getD (-99) else p.m_darksky
  let fwhm := if twilight then p.fwhm_twilight.getD (-99) else p.fwhm
  let Tscale := exptime / 30 * (10 : ℝ) ^ (-1 * 0.4 * (m_sky - p.m_darksky))
  (log10q (1 + ((10 : ℝ) ^ (0.8 * p.dCm_inf) - 1) / Tscale)).bind fun lg1 =>
    (log10q (0.7 / fwhm)).bind fun lg2 =>
      (log10q (exptime / 30)).map fun lg3 =>
        p.Cm + (p.dCm_inf - 1.25 * lg1) + 0.5 * (m_sky - 21) + 2.5 * lg2 +
          1.25 * lg3 - p.k_atm * (X - 1)

/-- Core computation of `calc_trailing_losses` after unit canonicalization
(velocity in deg/day, seeing in arcsec, exptime in seconds).  On the
domain the claims quantify over (nonnegative velocity, positive seeing and
exposure time) both `np.log10` arguments are at least 1, so the real-valued
`Real.logb` is exact here. -/
noncomputable def calc_trailing_losses_core (velocity seeing exptime : ℝ) : ℝ × ℝ :=
  let a_trail : ℝ := 0.761
  let b_trail : ℝ := 1.162
  let a_det : ℝ := 0.420
  let b_det : ℝ := 0.003
  let x := velocity * exptime / seeing / 24.0
  (1.25 * Real.logb 10 (1 + a_trail * x ^ 2 / (1 + b_trail * x)),
   1.25 * Real.logb 10 (1 + a_det * x ^ 2 / (1 + b_det * x)))

/-- Physical dimension as exponents of (angle, time). -/
structure Dim where
  ang : Int
  tim : Int
deriving DecidableEq

/-- Dimension of a velocity (angle/time). -/
def deg_per_day_dim : Dim := ⟨1, -1⟩

/-- Dimension of an angle. -/
def arcsec_dim : Dim := ⟨1, 0⟩

/-- Dimension of a time. -/
def second_dim : Dim := ⟨0, 1⟩

/-- Dimension of a bare (unitless) number. -/
def dimensionless_dim : Dim := ⟨0, 0⟩

/-- A dimensioned value: magnitude, conversion factor to the canonical
unit of its dimension (deg/day, arcsec or seconds), and dimension. -/
structure Quantity where
  value : ℝ
  unitScale : ℝ
  dim : Dim

/-- Value of a quantity expressed in its canonical unit (what
`Quantity.to` returns for the canonical target unit). -/
def qCanon (q : Quantity) : ℝ := q.value * q.unitScale

/-- A bare number passed where a unit-carrying quantity is expected. -/
def bareNumber (x : ℝ) : Quantity := ⟨x, 1, dimensionless_dim⟩

/-- Error raised by the unit-validation decorator. -/
inductive UnitsErr
  | dimensionMismatch
deriving DecidableEq

/-- `calc_trailing_losses` from `etc.py`, together with the
`@u.quantity_input(velocity=u.deg/u.day, seeing=u.arcsec, exptime=u.s)`
decorator: each argument must carry a unit convertible to the declared
dimension, otherwise a unit error is raised before any computation. -/
noncomputable def calc_trailing_losses (velocity seeing exptime : Quantity) :
    Except UnitsErr (ℝ × ℝ) :=
  if velocity.dim = deg_per_day_dim ∧ seeing.dim = arcsec_dim ∧
      exptime.dim = second_dim then
    Except.ok (calc_trailing_losses_core (qCanon velocity) (qCanon seeing)
      (qCanon exptime))
  else
    Except.error UnitsErr.dimensionMismatch

/-- `u_days_ratio` of `etc.py`: fraction of nights on which the u band is
mounted. -/
def u_days_frac : ℚ := 14 / 30

/-- The combined per-visit exposure time the six-filter branch of
`calc_event_time_budget` computes (`exptime_visit`): u and y exposure
times weighted by the mounted-night fractions, the rest summed as-is. -/
def exptime_visit_six (filters : List String) (exptimes : List ℚ) : ℚ :=
  ((filters.zip exptimes).map fun fe =>
    if fe.1 = "u" then fe.2 * u_days_frac
    else if fe.1 = "y" then fe.2 * (1 - u_days_frac)
    else fe.2).sum

/-- Final totalling step of `calc_event_time_budget`: the between-exposure
overhead scales with the number of fields, while the first-slew and
filter-change overheads are divided by it. -/
def budget_from_totals (n_fields : ℕ)
    (overhead_between_exposures_total overhead_filter_change_total
     exptime_total : ℚ) : ℚ :=
  let overhead_first_slew_total : ℚ := 0 + 30
  let overheads_total_nfields :=
    overhead_between_exposures_total * (n_fields : ℚ) / 60 / 60 +
    overhead_first_slew_total / (n_fields : ℚ) / 60 / 60 +
    overhead_filter_change_total / (n_fields : ℚ) / 60 / 60
  let total_exposure_time_hr := exptime_total / 60 / 60
  total_exposure_time_hr * (n_fields : ℚ) + overheads_total_nfields

/-- `calc_event_time_budget` from `etc.py`.  In the six-filter branch the
source computes `exptime_visit` (see `exptime_visit_six`) and the
per-visit overhead values `7.0 * 4` and `120.0 * 5`, but never adds any of
them to the running totals — those additions happen only in the `else`
branch — so the totals keep their initial value 0 there.  In the other
branch the totals are the per-visit values: `7.0 * len(exptimes)`,
`120.0 * len(exptimes)` and `sum(exptimes)`. -/
def calc_event_time_budget (n_fields : ℕ) (filters : List String)
    (exptimes : List ℚ) : ℚ :=
  if filters.length = 6 then
    budget_from_totals n_fields 0 0 0
  else
    budget_from_totals n_fields (7 * (exptimes.length : ℚ))
      (120 * (exptimes.length : ℚ)) exptimes.sum

/-- C1: in the six-filter branch the source never adds the combined visit
exposure time (`exptime_visit_six`, here 150 s for six 30 s exposures) or
the visit overheads to the running totals, so the returned budget is only
the amortized first-slew overhead 30/3600 = 1/120 hr — independent of the
exposure times — instead of the claim's combined total of
(150 + 4*7)/3600 + (30 + 5*120)/3600 = 808/3600 hr. -/
theorem c1_six_filter_budget_drops_visit_time :
    calc_event_time_budget 1 ["u", "g", "r", "i", "z", "y"]
      [30, 30, 30, 30, 30, 30] = 1 / 120 ∧
    calc_event_time_budget 1 ["u", "g", "r", "i", "z", "y"]
      [1000, 1000, 1000, 1000, 1000, 1000] = 1 / 120 ∧
    exptime_visit_six ["u", "g", "r", "i", "z", "y"]
      [30, 30, 30, 30, 30, 30] = 150 ∧
    (1 : ℚ) / 120 ≠ 808 / 3600 := by
  refine ⟨?_, ?_, ?_, by norm_num⟩
  · norm_num [calc_event_time_budget, budget_from_totals]
  · norm_num [calc_event_time_budget, budget_from_totals]
  · norm_num [exptime_visit_six, u_days_frac, List.zip,
      show ("g" : String) ≠ "u" from by decide,
      show ("g" : String) ≠ "y" from by decide,
      show ("r" : String) ≠ "u" from by decide,
      show ("r" : String) ≠ "y" from by decide,
      show ("i" : String) ≠ "u" from by decide,
      show ("i" : String) ≠ "y" from by decide,
      show ("z" : String) ≠ "u" from by decide,
      show ("z" : String) ≠ "y" from by decide,
      show ("y" : String) ≠ "u" from by decide]

/-- C2 (counterexample): with `filters` of length 1 and `exptimes` of
length 2 the estimator does not fail; it returns the numeric budget
(60 + 7*2 + 30 + 120*2)/3600 = 43/450 hr computed from `exptimes` alone,
so no length-mismatch check exists. -/
theorem c2_no_length_check :
    calc_event_time_budget 1 ["g"] [30, 30] = 43 / 450 := by
  norm_num [calc_event_time_budget, budget_from_totals]

/-- C2 (amended): the estimator performs no length validation; for
unequal-length inputs (outside the six-filter branch) it still returns the
budget determined by `exptimes` alone. -/
theorem c2_unequal_lengths_still_return_budget (n : ℕ) (fs : List String)
    (es : List ℚ) (_hlen : fs.length ≠ es.length) (h6 : fs.length ≠ 6) :
    calc_event_time_budget n fs es =
      es.sum * (n : ℚ) / 3600 + 7 * (es.length : ℚ) * (n : ℚ) / 3600 +
        30 / (n : ℚ) / 3600 + 120 * (es.length : ℚ) / (n : ℚ) / 3600 := by
  simp only [calc_event_time_budget, budget_from_totals, if_neg h6]
  ring

/-- C2 (witness): instance of the amended statement at the concrete
unequal-length input `n=1`, `filters=["g"]`, `exptimes=[30,30]`. -/
theorem c2_unequal_lengths_witness :
    calc_event_time_budget 1 ["g"] [30, 60, 90] = 197 / 1200 := by
  have h := c2_unequal_lengths_still_return_budget 1 ["g"] [30, 60, 90]
    (by decide) (by decide)
  rw [h]; norm_num

/-- C9: the reference budgets 0.18278 hr (one field) and 0.15306 hr (two
fields) are reproduced to within 1e-4, and the per-field average cost
decreases as the field count grows. -/
theorem c9_reference_budgets :
    |calc_event_time_budget 1 ["griz"] [30, 30, 30, 30] - 18278 / 100000| ≤
      1 / 10000 ∧
    |calc_event_time_budget 2 ["griz"] [30, 30, 30, 30] - 15306 / 100000| ≤
      1 / 10000 ∧
    calc_event_time_budget 2 ["griz"] [30, 30, 30, 30] / 2 <
      calc_event_time_budget 1 ["griz"] [30, 30, 30, 30] := by
  norm_num [calc_event_time_budget, budget_from_totals, abs_le]

/-- C10: outside the six-filter branch the returned budget never reads the
contents of `filters`: two runs differing only in the filter list (both of
length different from 6) return equal results. -/
theorem c10_budget_ignores_filter_contents (n : ℕ) (fs1 fs2 : List String)
    (es : List ℚ) (h1 : fs1.length ≠ 6) (h2 : fs2.length ≠ 6) :
    calc_event_time_budget n fs1 es = calc_event_time_budget n fs2 es := by
  simp only [calc_event_time_budget, if_neg h1, if_neg h2]

/-- C10 (witness): concrete instance with filter lists of lengths 1 and 3,
one containing letters outside ugrizy. -/
theorem c10_budget_ignores_filter_contents_witness :
    calc_event_time_budget 1 ["griz"] [30, 30, 30, 30] =
      calc_event_time_budget 1 ["a", "b", "c"] [30, 30, 30, 30] :=
  c10_budget_ignores_filter_contents 1 ["griz"] ["a", "b", "c"]
    [30, 30, 30, 30] (by decide) (by decide)

/-- The rational map `x ↦ a * x^2 / (1 + b * x)` appearing inside both
trailing-loss components is strictly increasing on the nonnegative axis
for `a > 0`, `b ≥ 0`. -/
lemma trail_ratio_strict_mono {a b x y : ℝ} (ha : 0 < a) (hb : 0 ≤ b)
    (hx : 0 ≤ x) (hxy : x < y) :
    a * x ^ 2 / (1 + b * x) < a * y ^ 2 / (1 + b * y) := by
  have hy : 0 < y := lt_of_le_of_lt hx hxy
  have hdx : 0 < 1 + b * x := by nlinarith [mul_nonneg hb hx]
  have hdy : 0 < 1 + b * y := by nlinarith [mul_nonneg hb hy.le]
  rw [div_lt_div_iff₀ hdx hdy]
  nlinarith [mul_pos ha (mul_pos (sub_pos.2 hxy) (show (0 : ℝ) < x + y by linarith)),
    mul_nonneg (mul_nonneg (mul_nonneg ha.le hb) (mul_nonneg hx hy.le))
      (sub_pos.2 hxy).le]

/-- The map `x ↦ a * x^2 / (1 + b * x)` is nonnegative for nonnegative
`a`, `b`, `x`. -/
lemma trail_ratio_nonneg {a b x : ℝ} (ha : 0 ≤ a) (hb : 0 ≤ b)
    (hx : 0 ≤ x) : 0 ≤ a * x ^ 2 / (1 + b * x) := by
  have hdx : 0 < 1 + b * x := by nlinarith [mul_nonneg hb hx]
  positivity

/-- One trailing-loss component `1.25 * log10 (1 + a x^2 / (1 + b x))`:
zero at zero, nonnegative, strictly increasing on the nonnegative axis. -/
lemma trail_component_props {a b : ℝ} (ha : 0 < a) (hb : 0 ≤ b) :
    1.25 * Real.logb 10 (1 + a * (0 : ℝ) ^ 2 / (1 + b * 0)) = 0 ∧
    (∀ x, 0 ≤ x → 0 ≤ 1.25 * Real.logb 10 (1 + a * x ^ 2 / (1 + b * x))) ∧
    (∀ x y, 0 ≤ x → x < y →
      1.25 * Real.logb 10 (1 + a * x ^ 2 / (1 + b * x)) <
        1.25 * Real.logb 10 (1 + a * y ^ 2 / (1 + b * y))) := by
  refine ⟨by norm_num, ?_, ?_⟩
  · intro x hx
    have h1 : (1 : ℝ) ≤ 1 + a * x ^ 2 / (1 + b * x) := by
      linarith [trail_ratio_nonneg ha.le hb hx]
    have := Real.logb_nonneg (b := 10) (by norm_num) h1
    linarith
  · intro x y hx hxy
    have harg : 1 + a * x ^ 2 / (1 + b * x) < 1 + a * y ^ 2 / (1 + b * y) := by
      linarith [trail_ratio_strict_mono ha hb hx hxy]
    have hpos : 0 < 1 + a * x ^ 2 / (1 + b * x) := by
      linarith [trail_ratio_nonneg ha.le hb hx]
    have := Real.logb_lt_logb (b := 10) (by norm_num) hpos harg
    linarith

/-- C7: for positive seeing and exposure time, both trailing-loss
components vanish at velocity 0, are nonnegative for nonnegative velocity,
and are strictly increasing in the velocity (equivalently in the trailing
parameter `x`, which is a positive multiple of the velocity). -/
theorem c7_trailing_losses_monotone (seeing exptime : ℝ) (hs : 0 < seeing)
    (ht : 0 < exptime) :
    calc_trailing_losses_core 0 seeing exptime = (0, 0) ∧
    (∀ v, 0 ≤ v → 0 ≤ (calc_trailing_losses_core v seeing exptime).1 ∧
      0 ≤ (calc_trailing_losses_core v seeing exptime).2) ∧
    (∀ v w, 0 ≤ v → v < w →
      (calc_trailing_losses_core v seeing exptime).1 <
        (calc_trailing_losses_core w seeing exptime).1 ∧
      (calc_trailing_losses_core v seeing exptime).2 <
        (calc_trailing_losses_core w seeing exptime).2) := by
  have hxval : ∀ u : ℝ, u * exptime / seeing / 24.0 =
      u * (exptime / seeing / 24.0) := fun u => by ring
  have hxpos : 0 < exptime / seeing / 24.0 := by positivity
  have htr := trail_component_props (a := 0.761) (b := 1.162)
    (by norm_num) (by norm_num)
  have hdet := trail_component_props (a := 0.420) (b := 0.003)
    (by norm_num) (by norm_num)
  refine ⟨?_, ?_, ?_⟩
  · simp only [calc_trailing_losses_core, zero_mul, zero_div]
    rw [Prod.ext_iff]
    exact ⟨by simp [htr.1], by simp [hdet.1]⟩
  · intro v hv
    have hx : 0 ≤ v * exptime / seeing / 24.0 := by positivity
    exact ⟨htr.2.1 _ hx, hdet.2.1 _ hx⟩
  · intro v w hv hvw
    have hx : 0 ≤ v * exptime / seeing / 24.0 := by positivity
    have hlt : v * exptime / seeing / 24.0 < w * exptime / seeing / 24.0 := by
      rw [hxval v, hxval w]
      exact mul_lt_mul_of_pos_right hvw hxpos
    exact ⟨htr.2.2 _ _ hx hlt, hdet.2.2 _ _ hx hlt⟩

/-- C7 (witness): both components vanish at velocity 0 for the default
seeing 0.8 arcsec and exposure time 30 s. -/
theorem c7_trailing_losses_monotone_witness :
    calc_trailing_losses_core 0 0.8 30 = (0, 0) :=
  (c7_trailing_losses_monotone 0.8 30 (by norm_num) (by norm_num)).1

/-- C8: whenever any argument's dimension differs from the declared one
(angle/time for velocity, angle for seeing, time for exposure time) —
in particular for bare numbers, which are dimensionless — the decorated
`calc_trailing_losses` stops with the dimension-mismatch error before any
computation. -/
theorem c8_dimension_mismatch_rejected (velocity seeing exptime : Quantity)
    (h : velocity.dim ≠ deg_per_day_dim ∨ seeing.dim ≠ arcsec_dim ∨
      exptime.dim ≠ second_dim) :
    calc_trailing_losses velocity seeing exptime =
      Except.error UnitsErr.dimensionMismatch := by
  unfold calc_trailing_losses
  rw [if_neg]
  tauto

/-- C8 (witness): the three default magnitudes passed as bare unitless
numbers are rejected with the dimension-mismatch error. -/
theorem c8_dimension_mismatch_rejected_witness :
    calc_trailing_losses (bareNumber 2) (bareNumber 0.8) (bareNumber 15) =
      Except.error UnitsErr.dimensionMismatch :=
  c8_dimension_mismatch_rejected (bareNumber 2) (bareNumber 0.8)
    (bareNumber 15) (Or.inl (by decide))

/-- `log10q` on a positive argument. -/
lemma log10q_of_pos {x : ℝ} (hx : 0 < x) :
    log10q x = some (Real.logb 10 x) := if_pos hx

/-- `log10q` on a non-positive argument (the not-a-number case). -/
lemma log10q_of_nonpos {x : ℝ} (hx : ¬ 0 < x) : log10q x = none := if_neg hx

/-- Every band has a positive dark-sky seeing value. -/
lemma params_fwhm_pos (f : Filt) : 0 < (params f).fwhm := by
  cases f <;> norm_num [params]

/-- Every band has a positive asymptotic correction constant. -/
lemma params_dCm_inf_pos (f : Filt) : 0 < (params f).dCm_inf := by
  cases f <;> norm_num [params]

/-- Evaluation of the dark-sky branch of `get_exptime`: the guard of the
single logarithm is satisfied, so the closed-form expression is
returned. -/
lemma get_exptime_darksky_eval (m5 : ℝ) (f : Filt) (X : ℝ) :
    get_exptime m5 f X false =
      some (30 * (10 : ℝ) ^ ((1 / 1.25) * (m5 - (params f).Cm -
        0.5 * ((params f).m_darksky - 21) -
        2.5 * Real.logb 10 (0.7 / (params f).fwhm) +
        (params f).k_atm * (X - 1)))) := by
  have hfw : (0 : ℝ) < 0.7 / (params f).fwhm :=
    div_pos (by norm_num) (params_fwhm_pos f)
  simp only [get_exptime, Bool.false_eq_true, if_false, log10q_of_pos hfw,
    Option.map_some']
  norm_num

/-- Evaluation of the dark-sky branch of `get_m5` for positive exposure
time: all three logarithm guards are satisfied. -/
lemma get_m5_darksky_eval (t : ℝ) (f : Filt) (X : ℝ) (ht : 0 < t) :
    get_m5 t f X false =
      some ((params f).Cm + ((params f).dCm_inf -
        1.25 * Real.logb 10 (1 + ((10 : ℝ) ^ (0.8 * (params f).dCm_inf) - 1) /
          (t / 30 * (10 : ℝ) ^
            (-1 * 0.4 * ((params f).m_darksky - (params f).m_darksky))))) +
        0.5 * ((params f).m_darksky - 21) +
        2.5 * Real.logb 10 (0.7 / (params f).fwhm) +
        1.25 * Real.logb 10 (t / 30) - (params f).k_atm * (X - 1)) := by
  have hTs : (0 : ℝ) < t / 30 * (10 : ℝ) ^
      (-1 * 0.4 * ((params f).m_darksky - (params f).m_darksky)) := by
    have := Real.rpow_pos_of_pos (show (0 : ℝ) < 10 by norm_num)
      (-1 * 0.4 * ((params f).m_darksky - (params f).m_darksky))
    positivity
  have h10 : (1 : ℝ) ≤ (10 : ℝ) ^ (0.8 * (params f).dCm_inf) :=
    Real.one_le_rpow (by norm_num)
      (mul_nonneg (by norm_num) (params_dCm_inf_pos f).le)
  have h1 : (0 : ℝ) < 1 + ((10 : ℝ) ^ (0.8 * (params f).dCm_inf) - 1) /
      (t / 30 * (10 : ℝ) ^
        (-1 * 0.4 * ((params f).m_darksky - (params f).m_darksky))) := by
    have hnum : (0 : ℝ) ≤ (10 : ℝ) ^ (0.8 * (params f).dCm_inf) - 1 := by
      linarith
    have := div_nonneg hnum hTs.le
    linarith
  have h2 : (0 : ℝ) < 0.7 / (params f).fwhm :=
    div_pos (by norm_num) (params_fwhm_pos f)
  have h3 : (0 : ℝ) < t / 30 := by positivity
  simp only [get_m5, Bool.false_eq_true, if_false, log10q_of_pos h1,
    log10q_of_pos h2, log10q_of_pos h3, Option.some_bind, Option.map_some']

/-- Evaluation of the twilight branch of `get_m5` for a band that has
twilight constants: `m_sky` and `fwhm` are the twilight values, but the
`Tscale` ratio still references `m_darksky`. -/
lemma get_m5_twilight_eval (t : ℝ) (f : Filt) (X mtw ftw : ℝ)
    (hm : (params f).m_twilight = some mtw)
    (hf : (params f).fwhm_twilight = some ftw) (hftw : 0 < ftw)
    (ht : 0 < t) :
    get_m5 t f X true =
      some ((params f).Cm + ((params f).dCm_inf -
        1.25 * Real.logb 10 (1 + ((10 : ℝ) ^ (0.8 * (params f).dCm_inf) - 1) /
          (t / 30 * (10 : ℝ) ^
            (-1 * 0.4 * (mtw - (params f).m_darksky))))) +
        0.5 * (mtw - 21) +
        2.5 * Real.logb 10 (0.7 / ftw) +
        1.25 * Real.logb 10 (t / 30) - (params f).k_atm * (X - 1)) := by
  have hTs : (0 : ℝ) < t / 30 * (10 : ℝ) ^
      (-1 * 0.4 * (mtw - (params f).m_darksky)) := by
    have := Real.rpow_pos_of_pos (show (0 : ℝ) < 10 by norm_num)
      (-1 * 0.4 * (mtw - (params f).m_darksky))
    positivity
  have h10 : (1 : ℝ) ≤ (10 : ℝ) ^ (0.8 * (params f).dCm_inf) :=
    Real.one_le_rpow (by norm_num)
      (mul_nonneg (by norm_num) (params_dCm_inf_pos f).le)
  have h1 : (0 : ℝ) < 1 + ((10 : ℝ) ^ (0.8 * (params f).dCm_inf) - 1) /
      (t / 30 * (10 : ℝ) ^ (-1 * 0.4 * (mtw - (params f).m_darksky))) := by
    have hnum : (0 : ℝ) ≤ (10 : ℝ) ^ (0.8 * (params f).dCm_inf) - 1 := by
      linarith
    have := div_nonneg hnum hTs.le
    linarith
  have h2 : (0 : ℝ) < 0.7 / ftw := div_pos (by norm_num) hftw
  have h3 : (0 : ℝ) < t / 30 := by positivity
  simp only [get_m5, if_true, hm, hf, Option.getD_some]
  simp only [log10q_of_pos h1, log10q_of_pos h2, log10q_of_pos h3,
    Option.some_bind, Option.map_some']

/-- C4: the dark-sky exposure time is exactly the closed form
`30 * 10^((1/1.25) * (m5 - Cm - 0.5*(m_sky-21) - 2.5*log10(0.7/fwhm)
+ k_atm*(X-1)))` with the band's dark-sky constants and the `dCm`
correction taken as exactly zero. -/
theorem c4_get_exptime_darksky_closed_form (m5 : ℝ) (f : Filt) (X : ℝ) :
    get_exptime m5 f X false =
      some (30 * (10 : ℝ) ^ ((1 / 1.25) * (m5 - (params f).Cm -
        0.5 * ((params f).m_darksky - 21) -
        2.5 * Real.logb 10 (0.7 / (params f).fwhm) +
        (params f).k_atm * (X - 1)))) :=
  get_exptime_darksky_eval m5 f X

/-- C5: `get_m5` returns
`Cm + dCm + 0.5*(m_sky-21) + 2.5*log10(0.7/fwhm) + 1.25*log10(t/30)
- k_atm*(X-1)` with `dCm` computed from
`Tscale = t/30 * 10^(-0.4*(m_sky - m_darksky))`; in the twilight branch
`m_sky` and `fwhm` become the twilight values while the `Tscale` ratio
keeps `m_darksky` as the dark-sky reference (so `m_sky - m_darksky` is
`m_twilight - m_darksky` there), preserving the asymmetry exactly. -/
theorem c5_get_m5_formula_and_twilight_asymmetry :
    (∀ (f : Filt) (t X : ℝ), 0 < t →
      get_m5 t f X false =
        some ((params f).Cm + ((params f).dCm_inf -
          1.25 * Real.logb 10 (1 +
            ((10 : ℝ) ^ (0.8 * (params f).dCm_inf) - 1) /
            (t / 30 * (10 : ℝ) ^
              (-1 * 0.4 * ((params f).m_darksky - (params f).m_darksky))))) +
          0.5 * ((params f).m_darksky - 21) +
          2.5 * Real.logb 10 (0.7 / (params f).fwhm) +
          1.25 * Real.logb 10 (t / 30) - (params f).k_atm * (X - 1))) ∧
    (∀ (f : Filt) (mtw ftw : ℝ), (params f).m_twilight = some mtw →
      (params f).fwhm_twilight = some ftw → 0 < ftw →
      ∀ (t X : ℝ), 0 < t →
      get_m5 t f X true =
        some ((params f).Cm + ((params f).dCm_inf -
          1.25 * Real.logb 10 (1 +
            ((10 : ℝ) ^ (0.8 * (params f).dCm_inf) - 1) /
            (t / 30 * (10 : ℝ) ^
              (-1 * 0.4 * (mtw - (params f).m_darksky))))) +
          0.5 * (mtw - 21) +
          2.5 * Real.logb 10 (0.7 / ftw) +
          1.25 * Real.logb 10 (t / 30) - (params f).k_atm * (X - 1))) :=
  ⟨fun f t X ht => get_m5_darksky_eval t f X ht,
   fun f mtw ftw hm hf hftw t X ht => get_m5_twilight_eval t f X mtw ftw hm hf hftw ht⟩

/-- C5 (witness): concrete instantiation for the r band, dark sky at 30 s
and twilight at 30 s with airmass 1.2. -/
theorem c5_get_m5_formula_witness :
    get_m5 30 Filt.r 1.2 true =
      some ((params Filt.r).Cm + ((params Filt.r).dCm_inf -
        1.25 * Real.logb 10 (1 +
          ((10 : ℝ) ^ (0.8 * (params Filt.r).dCm_inf) - 1) /
          ((30 : ℝ) / 30 * (10 : ℝ) ^
            (-1 * 0.4 * (19.47 - (params Filt.r).m_darksky))))) +
        0.5 * (19.47 - 21) +
        2.5 * Real.logb 10 (0.7 / 1.43) +
        1.25 * Real.logb 10 ((30 : ℝ) / 30) -
        (params Filt.r).k_atm * (1.2 - 1)) :=
  c5_get_m5_formula_and_twilight_asymmetry.2 Filt.r 19.47 1.43 rfl rfl
    (by norm_num) 30 1.2 (by norm_num)

/-- C6: for a band with no twilight constants (the hypotheses hold for u
and y), both converters with `twilight = true` substitute the -99.0
sentinel, hit a logarithm of a negative number, and return the
not-a-number sentinel (`none`) instead of raising. -/
theorem c6_twilight_without_constants_is_nan (f : Filt)
    (hm : (params f).m_twilight = none)
    (hf : (params f).fwhm_twilight = none) :
    (∀ (m5 X : ℝ), get_exptime m5 f X true = none) ∧
    (∀ (t X : ℝ), get_m5 t f X true = none) := by
  have hneg : ¬ (0 : ℝ) < 0.7 / (-99 : ℝ) := by norm_num
  constructor
  · intro m5 X
    simp only [get_exptime, if_true, hm, hf, Option.getD_none,
      log10q_of_nonpos hneg, Option.map_none']
  · intro t X
    simp only [get_m5, if_true, hm, hf, Option.getD_none]
    rcases h : log10q (1 + ((10 : ℝ) ^ (0.8 * (params f).dCm_inf) - 1) /
        (t / 30 * (10 : ℝ) ^ (-1 * 0.4 * (-99 - (params f).m_darksky)))) with
      _ | v
    · simp [h]
    · simp [h, log10q_of_nonpos hneg]

/-- C6 (witness): concrete twilight calls for the u and y bands produce
the not-a-number sentinel. -/
theorem c6_twilight_without_constants_is_nan_witness :
    get_exptime 23.7 Filt.u 1 true = none ∧
    get_m5 30 Filt.y 1.2 true = none :=
  ⟨(c6_twilight_without_constants_is_nan Filt.u rfl rfl).1 23.7 1,
   (c6_twilight_without_constants_is_nan Filt.y rfl rfl).2 30 1.2⟩

/-- The dark-sky 5-sigma depth reached in a 30 s exposure at airmass `X`:
at the 30 s reference point `Tscale = 1`, so the `dCm` correction and the
`1.25*log10(t/30)` term both vanish. -/
noncomputable def darksky_ref_m5 (f : Filt) (X : ℝ) : ℝ :=
  (params f).Cm + 0.5 * ((params f).m_darksky - 21) +
    2.5 * Real.logb 10 (0.7 / (params f).fwhm) - (params f).k_atm * (X - 1)

/-- At 30 s the dark-sky `get_m5` returns exactly `darksky_ref_m5`. -/
lemma get_m5_at_ref (f : Filt) (X : ℝ) :
    get_m5 30 f X false = some (darksky_ref_m5 f X) := by
  rw [get_m5_darksky_eval 30 f X (by norm_num)]
  have eT : (30 : ℝ) / 30 * (10 : ℝ) ^
      (-1 * 0.4 * ((params f).m_darksky - (params f).m_darksky)) = 1 := by
    rw [sub_self, mul_zero, Real.rpow_zero]
    norm_num
  rw [eT]
  have eA : (1 : ℝ) + ((10 : ℝ) ^ (0.8 * (params f).dCm_inf) - 1) / 1 =
      (10 : ℝ) ^ (0.8 * (params f).dCm_inf) := by ring
  rw [eA, Real.logb_rpow (by norm_num : (0 : ℝ) < 10)
    (by norm_num : (10 : ℝ) ≠ 1)]
  have e30 : (30 : ℝ) / 30 = 1 := by norm_num
  rw [e30, Real.logb_one]
  unfold darksky_ref_m5
  congr 1
  ring

/-- Feeding `darksky_ref_m5` back into the forward converter recovers the
30 s exposure time exactly: the exponent cancels to zero. -/
lemma get_exptime_at_ref (f : Filt) (X : ℝ) :
    get_exptime (darksky_ref_m5 f X) f X false = some 30 := by
  rw [get_exptime_darksky_eval]
  have e : (1 / 1.25) * (darksky_ref_m5 f X - (params f).Cm -
      0.5 * ((params f).m_darksky - 21) -
      2.5 * Real.logb 10 (0.7 / (params f).fwhm) +
      (params f).k_atm * (X - 1)) = 0 := by
    unfold darksky_ref_m5
    ring
  rw [e, Real.rpow_zero]
  norm_num

/-- C3: for every band and dark-sky airmass in {1.0, 1.2}, the two
converters are mutual inverses when chained at the 30 s reference scale:
the depth reached in 30 s maps back to an exposure time within 0.3 s of
30 s (here exactly 30 s, since `dCm(30 s) = 0` at dark sky), and feeding
that exposure time back recovers the original depth within 1e-3 relative
tolerance (here exactly). -/
theorem c3_converters_mutual_inverses (f : Filt) (X : ℝ)
    (_hX : X = 1 ∨ X = 1.2) :
    ∃ m, get_m5 30 f X false = some m ∧
      ∃ t2, get_exptime m f X false = some t2 ∧ |t2 - 30| ≤ 0.3 ∧
        ∃ m2, get_m5 t2 f X false = some m2 ∧ |m2 - m| ≤ 1 / 1000 * |m| := by
  refine ⟨darksky_ref_m5 f X, get_m5_at_ref f X, 30, get_exptime_at_ref f X,
    by norm_num, darksky_ref_m5 f X, get_m5_at_ref f X, ?_⟩
  simp only [sub_self, abs_zero]
  positivity

/-- C3 (witness): the round trip at the u band and airmass 1. -/
theorem c3_converters_mutual_inverses_witness :
    ∃ m, get_m5 30 Filt.u 1 false = some m ∧
      ∃ t2, get_exptime m Filt.u 1 false = some t2 ∧ |t2 - 30| ≤ 0.3 ∧
        ∃ m2, get_m5 t2 Filt.u 1 false = some m2 ∧
          |m2 - m| ≤ 1 / 1000 * |m| :=
  c3_converters_mutual_inverses Filt.u 1 (Or.inl rfl)
